import Mathlib

/-!
Verification development for the realtime conversational session server
(websocket handler in main.py, conversation agent in app/agent.py, session
lifecycle in app/services/session.py, post-processing in
app/services/summary.py, persistence in database.py, tools in
app/llm/tools.py).

Python strings are modelled as lists of characters (`Str`); Python dicts
with a fixed key set are modelled as Lean structures whose `Option` fields
model key presence.  External collaborators (the Gemini backend, Python's
`eval`, the random/clock sources) are modelled as explicit parameters: the
backend as a finite script of replies consumed by the agent loop, `eval`
and randomness as fields of an environment record.
-/

namespace RTChat

/-- Python strings, modelled as character lists. -/
abbrev Str := List Char

/-- Coerce a Lean string literal to the character-list model. -/
def str (s : String) : Str := s.data

/-- Python str.lower, character by character. -/
def lowerStr (s : Str) : Str := s.map Char.toLower

/-- Auxiliary for substring search: list-prefix test. -/
def isPre : Str → Str → Bool
  | [], _ => true
  | _ :: _, [] => false
  | a :: as, b :: bs => a == b && isPre as bs

/-- Python `a in b` on strings: `a` occurs as a contiguous substring of `b`. -/
def isSub (a : Str) : Str → Bool
  | [] => isPre a []
  | c :: bs => isPre a (c :: bs) || isSub a bs

/-- Python str.strip(): drop leading and trailing whitespace. -/
def pyStrip (s : Str) : Str :=
  ((s.dropWhile Char.isWhitespace).reverse.dropWhile Char.isWhitespace).reverse

/-- Python full_response.split(' '): split on single spaces, keeping empty
pieces; the result is never the empty list. -/
def splitSpace : Str → List Str
  | [] => [[]]
  | c :: cs =>
    if c = ' ' then [] :: splitSpace cs
    else
      match splitSpace cs with
      | [] => [[c]]
      | w :: ws => (c :: w) :: ws

/-- Join a list of words with a separator (Python sep.join(words)). -/
def joinWith (sep : Str) : List Str → Str
  | [] => []
  | [w] => w
  | w :: ws => w ++ sep ++ joinWith sep ws

theorem splitSpace_ne_nil (s : Str) : splitSpace s ≠ [] := by
  cases s with
  | nil => simp [splitSpace]
  | cons c cs =>
    simp only [splitSpace]
    split
    · simp
    · cases h : splitSpace cs <;> simp

theorem joinWith_space_splitSpace (s : Str) : joinWith [' '] (splitSpace s) = s := by
  induction s with
  | nil => rfl
  | cons c cs ih =>
    simp only [splitSpace]
    split
    · rename_i hc
      cases h : splitSpace cs with
      | nil => exact absurd h (splitSpace_ne_nil cs)
      | cons w ws =>
        rw [h] at ih
        simp [joinWith, hc, ← ih]
    · rename_i hc
      cases h : splitSpace cs with
      | nil => exact absurd h (splitSpace_ne_nil cs)
      | cons w ws =>
        rw [h] at ih
        cases ws with
        | nil => simpa [joinWith] using congrArg (c :: ·) ih
        | cons w2 ws2 => simpa [joinWith] using congrArg (c :: ·) ih

/-- The streamed chunks of agent.py lines 230-236: every word except the
last is re-suffixed with the single space that separated it from the next. -/
def toTokens : List Str → List Str
  | [] => []
  | [w] => [w]
  | w :: ws => (w ++ [' ']) :: toTokens ws

theorem join_toTokens (ws : List Str) : (toTokens ws).flatten = joinWith [' '] ws := by
  induction ws with
  | nil => rfl
  | cons w rest ih =>
    cases rest with
    | nil => simp [toTokens, joinWith]
    | cons w2 rest2 => simp [toTokens, joinWith, ih]

/-- The token chunks emitted for a full text reply. -/
def splitTokens (s : Str) : List Str := toTokens (splitSpace s)

theorem join_splitTokens (s : Str) : (splitTokens s).flatten = s := by
  rw [splitTokens, join_toTokens, joinWith_space_splitSpace]

/-! Embedding of app/llm/tools.py.  Python values produced by eval are
modelled by an opaque-enough value type; the eval primitive itself, the
random number source and the clock are external to the repository and are
supplied through a ToolEnv record. -/

/-- A Python value as returned by eval in the calculate tool. -/
inductive Val
  | num (n : Int)
  | text (s : Str)
  | noneV
deriving DecidableEq

/-- Result dict of the calculate tool (tools.py lines 29-54): the dict has
keys expression, success and exactly one of result / error; Option fields
model key presence. -/
structure CalcOut where
  expression : Str
  result : Option Val
  error : Option Str
  success : Bool
deriving DecidableEq

/-- Result dict of get_weather (tools.py lines 8-26).  The Fahrenheit field
is a one-decimal float in the source; it is held here in tenths so that
round(c * 9/5 + 32, 1) = (18 * c + 320) tenths exactly. -/
structure WeatherOut where
  location : Str
  temperature_celsius : Int
  temperature_fahrenheit_tenths : Int
  condition : Str
  humidity_percent : Int
  wind_speed_kmh : Int
  timestamp : Str
deriving DecidableEq

/-- One knowledge-base entry (tools.py lines 60-86). -/
structure KBInfo where
  title : Str
  content : Str
  category : Str
deriving DecidableEq

/-- Result dict of search_knowledge (tools.py lines 103-108). -/
structure SearchOut where
  query : Str
  category : Str
  results : List KBInfo
  result_count : Nat
deriving DecidableEq

/-- Result dict of get_current_time (tools.py lines 111-125). -/
structure TimeOut where
  timezone : Str
  datetime : Str
  date : Str
  time : Str
  day_of_week : Str
  note : Str
deriving DecidableEq

/-- The dict returned by execute_tool (agent.py lines 95-105): one of the
four tool result shapes, or the sentinel error dict for an unknown name. -/
inductive ToolResult
  | weather (w : WeatherOut)
  | calc (c : CalcOut)
  | search (s : SearchOut)
  | time (t : TimeOut)
  | err (message : Str)
deriving DecidableEq

/-- External primitives used by the tools: Python eval (restricted to the
allowed names), the random module, and the utcnow clock. -/
structure ToolEnv where
  evalExpr : Str → Except Str Val
  randTempC : Int
  randCond : Str
  randHumidity : Int
  randWind : Int
  nowIso : Str
  nowDate : Str
  nowTime : Str
  nowDay : Str

/-- tools.py get_weather: builds the weather dict from the environment's
random and clock values. -/
def get_weather (env : ToolEnv) (location : Str) : WeatherOut :=
  { location := location
    temperature_celsius := env.randTempC
    temperature_fahrenheit_tenths := 18 * env.randTempC + 320
    condition := env.randCond
    humidity_percent := env.randHumidity
    wind_speed_kmh := env.randWind
    timestamp := env.nowIso }

/-- tools.py calculate: try eval(expression); on success return
expression/result/success=True, on exception return
expression/error=str(e)/success=False.  Errors are data, never raised. -/
def calculate (ev : Except Str Val) (expression : Str) : CalcOut :=
  match ev with
  | .ok v => { expression := expression, result := some v, error := none, success := true }
  | .error e => { expression := expression, result := none, error := some e, success := false }

/-- The five-entry knowledge base of tools.py lines 60-86, keyed by
lowercase topic. -/
def knowledge_base : List (Str × KBInfo) :=
  [ (str "python",
     { title := str "Python Programming Language"
       content := str "Python is a high-level, interpreted programming language known for its simplicity and readability. Created by Guido van Rossum and first released in 1991."
       category := str "technology" }),
    (str "machine learning",
     { title := str "Machine Learning"
       content := str "Machine Learning is a subset of AI that enables systems to learn and improve from experience. Key types include supervised, unsupervised, and reinforcement learning."
       category := str "technology" }),
    (str "websocket",
     { title := str "WebSocket Protocol"
       content := str "WebSocket is a communication protocol providing full-duplex channels over a single TCP connection. Ideal for real-time applications like chat and live updates."
       category := str "technology" }),
    (str "climate",
     { title := str "Climate Change"
       content := str "Climate change refers to long-term shifts in temperatures and weather patterns. Human activities, particularly burning fossil fuels, are the main driver since the 1800s."
       category := str "science" }),
    (str "renaissance",
     { title := str "The Renaissance"
       content := str "The Renaissance was a cultural movement from the 14th to 17th century, beginning in Italy. It marked the transition from medieval to modern times."
       category := str "history" }) ]

/-- The ASCII apostrophe, written by code point to keep it out of string
literals. -/
def apos : Char := Char.ofNat 39

/-- The simulated fallback entry appended when nothing matches
(tools.py lines 96-101). -/
def fallbackEntry (query category : Str) : KBInfo :=
  { title := str "Search results for: " ++ query
    content := str "I found some information about " ++ [apos] ++ query ++ [apos] ++
      str ". This is a simulated knowledge base response demonstrating the tool calling capability."
    category := category }

/-- tools.py search_knowledge: substring-match the lowercased query against
the knowledge-base keys in both directions, filter by category (category
general means no filter), and append the simulated fallback entry when
nothing matched. -/
def search_knowledge (query : Str) (category : Str) : SearchOut :=
  let queryLower := lowerStr query
  let matched :=
    (knowledge_base.filter (fun p =>
      (isSub queryLower p.1 || isSub p.1 queryLower) &&
      (category == str "general" || p.2.category == category))).map (·.2)
  let results := if matched.isEmpty then [fallbackEntry query category] else matched
  { query := query
    category := category
    results := results
    result_count := results.length }

/-- tools.py get_current_time: builds the time dict from the clock. -/
def get_current_time (env : ToolEnv) (timezone : Str) : TimeOut :=
  { timezone := timezone
    datetime := env.nowIso
    date := env.nowDate
    time := env.nowTime
    day_of_week := env.nowDay
    note := str "Time shown in " ++ timezone ++ str " (simulated)" }

/-- agent.py execute_tool (lines 95-105): dispatch on the tool name over the
closed registered set; any other name yields the sentinel error dict.  The
langchain invoke argument binding is modelled as lookup in the argument
mapping (with the declared defaults for the optional parameters). -/
def execute_tool (env : ToolEnv) (tool_name : Str) (tool_args : List (Str × Str)) : ToolResult :=
  if tool_name = str "get_weather" then
    .weather (get_weather env (((tool_args.lookup (str "location")).getD [])))
  else if tool_name = str "calculate" then
    let e := (tool_args.lookup (str "expression")).getD []
    .calc (calculate (env.evalExpr e) e)
  else if tool_name = str "search_knowledge" then
    .search (search_knowledge ((tool_args.lookup (str "query")).getD [])
      ((tool_args.lookup (str "category")).getD (str "general")))
  else if tool_name = str "get_current_time" then
    .time (get_current_time env ((tool_args.lookup (str "timezone")).getD (str "UTC")))
  else
    .err (str "Unknown tool: " ++ tool_name)

/-! Embedding of ConversationAgent.process_message (agent.py lines
164-267).  The Gemini backend is modelled as a finite script of replies;
each send_message call consumes the next script element.  A script element
is either a structured response (first candidate part plus the text
accessor) or an exception message.  The async generator becomes a function
from the script to the list of yielded events together with the updated
working history; the result is none exactly when the script is exhausted
while the tool loop still demands another backend reply (a backend that
perpetually requests tools cannot be represented by any finite script). -/

/-- A turn of the in-memory working history (conversation_history). -/
inductive Turn
  | user (content : Str)
  | assistant (content : Str)
deriving DecidableEq

/-- The first part of the first candidate: its function_call name (empty
when the part is not a function call) and arguments. -/
structure ModelPart where
  fcName : Str
  fcArgs : List (Str × Str)
deriving DecidableEq

/-- One structured backend response: parts[0] when candidates and parts are
non-empty (none otherwise), and the text accessor (empty when the response
carries no usable text). -/
structure ModelResponse where
  part : Option ModelPart
  text : Str
deriving DecidableEq

/-- One scripted outcome of a send_message call: a response, or a raised
exception with its message. -/
inductive BackendReply
  | ok (r : ModelResponse)
  | exn (msg : Str)
deriving DecidableEq

/-- The events yielded by process_message, in yield order. -/
inductive Ev
  | token (content : Str)
  | complete (content : Str)
  | toolCall (tool_name : Str) (tool_input : List (Str × Str))
  | toolResult (tool_name : Str) (result : ToolResult)
  | error (content : Str)
deriving DecidableEq

/-- agent.py lines 255-262: classify an exception message into one of the
four sanitized user-facing error strings by substring matching. -/
def classify (msg : Str) : Str :=
  let ml := lowerStr msg
  if isSub (str "429") msg || isSub (str "quota") ml ||
      isSub (str "rate") ml || isSub (str "exhausted") ml then
    str "API quota exceeded. Get a new key from https://aistudio.google.com/apikey"
  else if isSub (str "api_key") ml || isSub (str "invalid") ml || isSub (str "API key") msg then
    str "Invalid API key. Update GEMINI_API_KEY in your .env file"
  else if isSub (str "blocked") ml || isSub (str "safety") ml then
    str "Response blocked by safety filters. Try a different message."
  else
    str "Error: " ++ msg.take 120

/-- The empty-response error message of agent.py line 248. -/
def emptyRespMsg : Str :=
  str "AI returned empty response. Your API quota may be exhausted."

/-- The disabled-backend error message of agent.py line 175. -/
def notInitMsg : Str :=
  str "Gemini not initialized. Check your GEMINI_API_KEY in .env"

/-- agent.py lines 227-249: after the while loop exits, stream the text
word by word then yield complete (also reporting the assistant text to be
appended to the working history), or yield the empty-response error. -/
def finishTurn (r : ModelResponse) (acc : List Ev) : Option (List Ev × Option Str) :=
  if r.text ≠ [] then
    some (acc ++ (splitTokens r.text).map Ev.token ++ [.complete r.text], some r.text)
  else
    some (acc ++ [.error emptyRespMsg], none)

/-- agent.py lines 187-225: the while loop.  While the current response's
first part is a function call with a non-empty name, yield tool_call,
execute the tool, yield tool_result, and send the function response back to
the backend (consuming the next script element); otherwise break and finish
the turn.  An exception from the re-send is classified and yielded as a
single error event after the events already yielded. -/
def toolLoop (env : ToolEnv) : ModelResponse → List BackendReply → List Ev →
    Option (List Ev × Option Str)
  | r, [], acc =>
    match r.part with
    | none => finishTurn r acc
    | some p => if p.fcName = [] then finishTurn r acc else none
  | r, b :: rest2, acc =>
    match r.part with
    | none => finishTurn r acc
    | some p =>
      if p.fcName = [] then finishTurn r acc
      else
        let tr := execute_tool env p.fcName p.fcArgs
        let acc2 := acc ++ [.toolCall p.fcName p.fcArgs, .toolResult p.fcName tr]
        match b with
        | .exn m => some (acc2 ++ [.error (classify m)], none)
        | .ok r2 => toolLoop env r2 rest2 acc2

/-- agent.py process_message: the disabled-backend early return (before the
user turn is appended), then the user append, the first send_message
(consuming the script head; an exception there is classified), the tool
loop, and the text/empty tail.  Returns the yielded events and the updated
working history. -/
def process_message (env : ToolEnv) (llm_available : Bool) (hist : List Turn)
    (user_message : Str) (script : List BackendReply) : Option (List Ev × List Turn) :=
  if llm_available = false then
    some ([.error notInitMsg], hist)
  else
    let hist1 := hist ++ [Turn.user user_message]
    match script with
    | [] => none
    | .exn m :: _ => some ([.error (classify m)], hist1)
    | .ok r :: rest =>
      (toolLoop env r rest []).map (fun p =>
        (p.1, match p.2 with
              | some s => hist1 ++ [Turn.assistant s]
              | none => hist1))

/-- An event that terminates a turn. -/
def isTerminal : Ev → Bool
  | .complete _ => true
  | .error _ => true
  | _ => false

def isToolCallEv : Ev → Bool
  | .toolCall _ _ => true
  | _ => false

def isErrorEv : Ev → Bool
  | .error _ => true
  | _ => false

def isCompleteEv : Ev → Bool
  | .complete _ => true
  | _ => false

def isTokenEv : Ev → Bool
  | .token _ => true
  | _ => false

/-! Embedding of the session lifecycle (app/services/session.py and the
session-row side of database.py).  Timestamps are seconds on a single
abstract clock (Nat); int((end - start).total_seconds()) is Nat
subtraction.  A stored session row and the SessionManager's local state
are modelled separately, as in the source. -/

/-- models.py SessionStatus. -/
inductive Status
  | active
  | completed
  | error
deriving DecidableEq

/-- A sessions-table row (the fields the lifecycle operations touch). -/
structure Row where
  start_time : Nat
  end_time : Option Nat
  duration_seconds : Option Nat
  status : Status
  summary : Option Str
  name : Option Str
deriving DecidableEq

/-- A partial update dict passed to database.py update_session: an outer
some means the key is present in the dict (its value may itself be null). -/
structure Patch where
  endT : Option (Option Nat)
  dur : Option (Option Nat)
  status : Option Status
  summary : Option (Option Str)
  name : Option (Option Str)
deriving DecidableEq

/-- Apply an update dict to a row; absent keys leave the column unchanged.
No lifecycle update ever touches start_time. -/
def applyPatch (r : Row) (p : Patch) : Row :=
  { start_time := r.start_time
    end_time := p.endT.getD r.end_time
    duration_seconds := p.dur.getD r.duration_seconds
    status := p.status.getD r.status
    summary := p.summary.getD r.summary
    name := p.name.getD r.name }

/-- SessionManager's local state (session.py lines 17-21). -/
structure Mgr where
  is_active : Bool
  start_time : Option Nat
deriving DecidableEq

/-- The manager together with the session's stored row (none when the store
holds no row for this id). -/
structure SysS where
  row : Option Row
  mgr : Mgr
deriving DecidableEq

/-- A freshly inserted sessions row (database.py create_session: status
active, start time defaulted to now). -/
def freshRow (t : Nat) : Row :=
  { start_time := t, end_time := none, duration_seconds := none
    status := .active, summary := none, name := none }

/-- A SessionManager before any lifecycle call. -/
def initS : SysS := { row := none, mgr := { is_active := false, start_time := none } }

/-- database.py update_session restricted to this session's row. -/
def update_session (p : Patch) (s : SysS) : SysS :=
  { s with row := s.row.map (applyPatch · p) }

/-- A persistence call issued by a lifecycle operation. -/
inductive SWrite
  | logSystem (content : Str) (duration : Option Nat)
  | update (p : Patch)
deriving DecidableEq

def isUpdateWrite : SWrite → Bool
  | .update _ => true
  | _ => false

/-- session.py start_session (lines 23-38): record the local start time,
insert a fresh row, mark the manager active. -/
def start_session (t : Nat) (_s : SysS) : SysS :=
  { row := some (freshRow t), mgr := { is_active := true, start_time := some t } }

/-- session.py end_session (lines 40-69): a no-op when the manager already
believes the session inactive; otherwise flip the flag, compute the
duration from the locally tracked start time, write one system event and
one finalize update (end time, duration, status completed). -/
def end_session (t : Nat) (s : SysS) : SysS × List SWrite :=
  if s.mgr.is_active = false then (s, [])
  else
    let dur := s.mgr.start_time.map (fun st => t - st)
    let p : Patch :=
      { endT := some (some t), dur := some dur, status := some .completed
        summary := none, name := none }
    ({ row := (update_session p s).row
       mgr := { is_active := false, start_time := s.mgr.start_time } },
     [.logSystem (str "Session ended") dur, .update p])

/-- session.py resume_session (lines 71-102): requires the row to exist
(the source raises otherwise, modelled as the identity since the caller
then abandons the manager), marks the manager active, re-parses the stored
start time, and updates the row with status active and end time null.  The
update dict has no duration key: the stored duration is left as is. -/
def resume_session (s : SysS) : SysS :=
  match s.row with
  | none => s
  | some r =>
    let p : Patch :=
      { endT := some none, dur := none, status := some .active
        summary := none, name := none }
    { row := some (applyPatch r p)
      mgr := { is_active := true, start_time := some r.start_time } }

/-- The update dict written by database.py finalize_session (lines
119-130). -/
def finalize_patch (summary : Str) (endT dur : Nat) : Patch :=
  { endT := some (some endT), dur := some (some dur), status := some .completed
    summary := some (some summary), name := none }

/-- The spec's Session invariant: end time and duration both set or both
absent, and duration = end time - start time in whole seconds. -/
def rowInv (r : Row) : Bool :=
  (r.end_time.isNone == r.duration_seconds.isNone) &&
  (match r.end_time, r.duration_seconds with
   | some e, some d => d == e - r.start_time
   | _, _ => true)

/-- The invariant lifted to a manager state (vacuous without a row). -/
def sysInv (s : SysS) : Bool :=
  match s.row with
  | none => true
  | some r => rowInv r

/-- The manager's locally tracked start time agrees with the stored row. -/
def startSync (s : SysS) : Bool :=
  match s.row with
  | none => true
  | some r => s.mgr.start_time == some r.start_time

/-- The stored duration column is absent. -/
def durNone (s : SysS) : Bool :=
  match s.row with
  | none => true
  | some r => r.duration_seconds.isNone

/-! Embedding of the database tables (database.py) and the post-processor
(app/services/summary.py).  Session ids are Nats; the events table keeps
rows in timestamp order.  The summarization and title model calls are
external and supplied through a PostEnv record. -/

/-- models.py EventType. -/
inductive EventType
  | user_message
  | ai_response
  | tool_call
  | tool_result
  | system
  | error
deriving DecidableEq

/-- An events-table row (the columns the claims touch). -/
structure DbEv where
  sid : Nat
  etype : EventType
  content : Str
deriving DecidableEq

/-- The backing store: the sessions and events tables. -/
structure Db where
  sessions : List (Nat × Row)
  events : List DbEv
deriving DecidableEq

/-- database.py get_session: the row for an id, none when absent. -/
def get_session (db : Db) (sid : Nat) : Option Row :=
  (db.sessions.find? (fun p => p.1 == sid)).map (·.2)

/-- database.py get_session_message_count: count of this session's
user_message events. -/
def get_session_message_count (db : Db) (sid : Nat) : Nat :=
  (db.events.filter (fun e => e.sid == sid && e.etype == .user_message)).length

/-- database.py delete_session (lines 133-153): delete the session's events
then its row; report true exactly when a row was deleted. -/
def delete_session (db : Db) (sid : Nat) : Bool × Db :=
  let existed := (db.sessions.find? (fun p => p.1 == sid)).isSome
  (existed,
   { sessions := db.sessions.filter (fun p => !(p.1 == sid))
     events := db.events.filter (fun e => !(e.sid == sid)) })

/-- database.py update_session over the whole table. -/
def update_session_db (db : Db) (sid : Nat) (p : Patch) : Db :=
  { db with sessions := db.sessions.map (fun q => if q.1 == sid then (q.1, applyPatch q.2 p) else q) }

/-- database.py get_conversation_history: this session's user_message and
ai_response events in stored order. -/
def get_conversation_history (db : Db) (sid : Nat) : List DbEv :=
  db.events.filter (fun e =>
    e.sid == sid && (e.etype == .user_message || e.etype == .ai_response))

/-- The external model calls used by the post-processor: one-shot
summarization and title generation. -/
structure PostEnv where
  summarize : Str → Str
  chatName : Str → Str

/-- summary.py lines 91-96: render the transcript fed to the summarizer. -/
def render_transcript (evs : List DbEv) : Str :=
  joinWith ['\n'] (evs.map (fun e =>
    (if e.etype == .user_message then str "User" else str "Assistant") ++ str ": " ++ e.content))

/-- summary.py generate_session_summary: a fixed sentence for an empty
history, otherwise the summarizer's output on the rendered transcript. -/
def generate_session_summary (env : PostEnv) (db : Db) (sid : Nat) : Str :=
  let evs := get_conversation_history db sid
  if evs.isEmpty then str "No conversation took place in this session."
  else env.summarize (render_transcript evs)

/-- The characters stripped from a generated title (summary.py line 68). -/
def quoteChars : List Char := ['"', apos]

/-- summary.py generate_chat_name: strip whitespace then quotes, truncate
past 50 characters to 47 plus an ellipsis. -/
def generate_chat_name (env : PostEnv) (summary : Str) : Str :=
  let name0 := pyStrip (env.chatName summary)
  let name1 := ((name0.dropWhile (quoteChars.contains ·)).reverse.dropWhile
    (quoteChars.contains ·)).reverse
  if name1.length > 50 then name1.take 47 ++ str "..." else name1

/-- The post-processing report dict (summary.py lines 133-170). -/
structure PostResult where
  status : Str
  reason : Option Str
deriving DecidableEq

/-- summary.py process_session_end (lines 120-170): compute the duration
from the connection-local start time, count the session's user messages;
if zero delete the session (reporting deleted, or delete_failed when no
row was deleted), otherwise summarize, name, and finalize the session. -/
def process_session_end (env : PostEnv) (db : Db) (sid : Nat)
    (startT endT : Nat) : PostResult × Db :=
  let dur := endT - startT
  if get_session_message_count db sid = 0 then
    let p := delete_session db sid
    ({ status := if p.1 then str "deleted" else str "delete_failed"
       reason := some (str "empty_session") }, p.2)
  else
    let summary := generate_session_summary env db sid
    let db1 :=
      if summary ≠ [] then
        update_session_db db sid
          { endT := none, dur := none, status := none, summary := none
            name := some (some (generate_chat_name env summary)) }
      else db
    let db2 := update_session_db db1 sid
      (finalize_patch (if summary = [] then str "No summary available" else summary) endT dur)
    ({ status := str "completed", reason := none }, db2)

/-! Embedding of the websocket connection loop (main.py websocket_session,
lines 167-244) at the granularity the claims need: inbound frames are
classified (malformed, ping, content), engine events are mapped one-to-one
to outbound frames, and the loop continues after every inbound frame. -/

/-- An inbound frame after the json.loads attempt: either unparseable text
or a parsed object with its type discriminator and content field. -/
inductive Inbound
  | malformed (raw : Str)
  | parsed (typeField : Option Str) (content : Option Str)
deriving DecidableEq

/-- An outbound frame (main.py send_ws_message payloads). -/
inductive Outbound
  | pong
  | aiToken (token : Str)
  | aiComplete (content : Str)
  | toolCallF (tool_name : Str) (tool_input : List (Str × Str))
  | toolResF (tool_name : Str) (result : ToolResult)
  | errorF (message : Str)
deriving DecidableEq

/-- The 1:1 event-to-frame mapping of main.py lines 184-229. -/
def evToFrame : Ev → Outbound
  | .token c => .aiToken c
  | .complete c => .aiComplete c
  | .toolCall n i => .toolCallF n i
  | .toolResult n r => .toolResF n r
  | .error m => .errorF m

/-- The persistence write performed for one engine event by main.py lines
184-229: tokens are not persisted; a complete is persisted as an
ai_response only when its content is non-empty. -/
inductive DbWrite
  | aiRespW (content : Str)
  | toolCallW (tool_name : Str) (tool_input : List (Str × Str))
  | toolResW (tool_name : Str) (result : ToolResult)
  | errorW (content : Str)
deriving DecidableEq

def persistEv : Ev → Option DbWrite
  | .token _ => none
  | .toolCall n i => some (.toolCallW n i)
  | .toolResult n r => some (.toolResW n r)
  | .complete c => if c ≠ [] then some (.aiRespW c) else none
  | .error m => some (.errorW m)

/-- The persistence writes of one turn, in event order. -/
def persistTurn (evs : List Ev) : List DbWrite := evs.filterMap persistEv

def isAiRespW : DbWrite → Bool
  | .aiRespW _ => true
  | _ => false

/-- One iteration of the receive loop, parametrized by the engine's event
sequence for a message (main.py lines 168-237): a json.loads failure
answers with the fixed error frame; a ping answers pong; an empty or
whitespace-only content is ignored; otherwise the engine's events are
mapped to outbound frames in order.  Every branch falls through to the
next receive. -/
def stepFrame (engine : Str → List Ev) (f : Inbound) : List Outbound :=
  match f with
  | .malformed _ => [.errorF (str "Invalid message format")]
  | .parsed t c =>
    if t == some (str "ping") then [.pong]
    else
      let u := pyStrip (c.getD [])
      if u = [] then [] else (engine u).map evToFrame

/-- The receive loop over a finite inbound sequence; the connection stays
open across frames, so the outbound stream is the concatenation of the
per-frame responses. -/
def runLoop (engine : Str → List Ev) : List Inbound → List Outbound
  | [] => []
  | f :: fs => stepFrame engine f ++ runLoop engine fs

/-! Helper lemmas about the tool-calling loop. -/

/-- Unfolding the loop on a break response (first part absent). -/
theorem toolLoop_none_eq (env : ToolEnv) (t : Str) (rest : List BackendReply)
    (acc : List Ev) : toolLoop env ⟨none, t⟩ rest acc = finishTurn ⟨none, t⟩ acc := by
  cases rest <;> rfl

/-- Unfolding the loop on a break response (first part not a function
call). -/
theorem toolLoop_break_eq (env : ToolEnv) (p : ModelPart) (t : Str)
    (rest : List BackendReply) (acc : List Ev) (hp : p.fcName = []) :
    toolLoop env ⟨some p, t⟩ rest acc = finishTurn ⟨some p, t⟩ acc := by
  cases rest <;> simp [toolLoop, hp]

/-- The loop demands another backend reply when the script is exhausted on
a function-call response. -/
theorem toolLoop_tool_nil (env : ToolEnv) (p : ModelPart) (t : Str)
    (acc : List Ev) (hp : p.fcName ≠ []) :
    toolLoop env ⟨some p, t⟩ [] acc = none := by
  simp [toolLoop, hp]

/-- One loop iteration whose follow-up send raises. -/
theorem toolLoop_tool_exn (env : ToolEnv) (p : ModelPart) (t m : Str)
    (tail : List BackendReply) (acc : List Ev) (hp : p.fcName ≠ []) :
    toolLoop env ⟨some p, t⟩ (.exn m :: tail) acc =
      some ((acc ++ [.toolCall p.fcName p.fcArgs,
        .toolResult p.fcName (execute_tool env p.fcName p.fcArgs)]) ++
          [.error (classify m)], none) := by
  simp [toolLoop, hp]

/-- One loop iteration whose follow-up send returns a response. -/
theorem toolLoop_tool_ok (env : ToolEnv) (p : ModelPart) (t : Str)
    (r2 : ModelResponse) (rest2 : List BackendReply) (acc : List Ev)
    (hp : p.fcName ≠ []) :
    toolLoop env ⟨some p, t⟩ (.ok r2 :: rest2) acc =
      toolLoop env r2 rest2 (acc ++ [.toolCall p.fcName p.fcArgs,
        .toolResult p.fcName (execute_tool env p.fcName p.fcArgs)]) := by
  simp [toolLoop, hp]

/-- finishTurn always returns a value. -/
theorem finishTurn_isSome (r : ModelResponse) (acc : List Ev) :
    (finishTurn r acc).isSome = true := by
  unfold finishTurn
  split <;> rfl

/-- Whatever finishTurn returns ends in a complete or an error event. -/
theorem finishTurn_terminal (r : ModelResponse) (acc evs : List Ev)
    (at2 : Option Str) (h : finishTurn r acc = some (evs, at2)) :
    ∃ e, evs.getLast? = some e ∧ isTerminal e = true := by
  unfold finishTurn at h
  split at h
  · cases h
    exact ⟨.complete r.text, List.getLast?_concat _, rfl⟩
  · cases h
    exact ⟨.error emptyRespMsg, List.getLast?_concat _, rfl⟩

/-- Whenever the loop returns at all, its event list ends in a complete or
an error event. -/
theorem toolLoop_terminal (env : ToolEnv) :
    ∀ (rest : List BackendReply) (r : ModelResponse) (acc evs : List Ev)
      (at2 : Option Str), toolLoop env r rest acc = some (evs, at2) →
      ∃ e, evs.getLast? = some e ∧ isTerminal e = true := by
  intro rest
  induction rest with
  | nil =>
    intro r acc evs at2 h
    obtain ⟨part, t⟩ := r
    cases part with
    | none => exact finishTurn_terminal _ _ _ _ h
    | some p =>
      by_cases hp : p.fcName = []
      · rw [toolLoop_break_eq env p t [] acc hp] at h
        exact finishTurn_terminal _ _ _ _ h
      · rw [toolLoop_tool_nil env p t acc hp] at h
        cases h
  | cons b rest2 ih =>
    intro r acc evs at2 h
    rw [show toolLoop env r (b :: rest2) acc =
      toolLoop env ⟨r.part, r.text⟩ (b :: rest2) acc from rfl] at h
    cases hpart : r.part with
    | none =>
      rw [hpart, toolLoop_none_eq] at h
      exact finishTurn_terminal _ _ _ _ h
    | some p =>
      rw [hpart] at h
      by_cases hp : p.fcName = []
      · rw [toolLoop_break_eq env p r.text _ acc hp] at h
        exact finishTurn_terminal _ _ _ _ h
      · cases b with
        | exn m =>
          rw [toolLoop_tool_exn env p r.text m rest2 acc hp] at h
          cases h
          exact ⟨.error (classify m), List.getLast?_concat _, rfl⟩
        | ok r2 =>
          rw [toolLoop_tool_ok env p r.text r2 rest2 acc hp] at h
          exact ih r2 _ evs at2 h

/-- A scripted reply at which the while loop stops asking for more: an
exception, or a response whose first part is not a function call. -/
def isStopper : BackendReply → Bool
  | .exn _ => true
  | .ok r =>
    match r.part with
    | some p => p.fcName == []
    | none => true

/-- The loop returns a value as soon as the current response or some later
scripted reply is a stopper. -/
theorem toolLoop_some_of_stopper (env : ToolEnv) :
    ∀ (rest : List BackendReply) (r : ModelResponse) (acc : List Ev),
      (isStopper (.ok r) = true ∨ ∃ b ∈ rest, isStopper b = true) →
      (toolLoop env r rest acc).isSome = true := by
  intro rest
  induction rest with
  | nil =>
    intro r acc h
    obtain ⟨part, t⟩ := r
    cases part with
    | none => exact finishTurn_isSome _ _
    | some p =>
      by_cases hp : p.fcName = []
      · rw [toolLoop_break_eq env p t [] acc hp]
        exact finishTurn_isSome _ _
      · rcases h with h | ⟨b, hb, _⟩
        · simp [isStopper, hp] at h
        · simp at hb
  | cons b rest2 ih =>
    intro r acc h
    obtain ⟨part, t⟩ := r
    cases part with
    | none => rw [toolLoop_none_eq]; exact finishTurn_isSome _ _
    | some p =>
      by_cases hp : p.fcName = []
      · rw [toolLoop_break_eq env p t _ acc hp]
        exact finishTurn_isSome _ _
      · rcases h with h | ⟨b2, hb2, hs⟩
        · simp [isStopper, hp] at h
        · rcases List.mem_cons.mp hb2 with rfl | hmem
          · cases b2 with
            | exn m => rw [toolLoop_tool_exn env p t m rest2 acc hp]; rfl
            | ok r2 =>
              rw [toolLoop_tool_ok env p t r2 rest2 acc hp]
              exact ih r2 _ (Or.inl hs)
          · cases b with
            | exn m => rw [toolLoop_tool_exn env p t m rest2 acc hp]; rfl
            | ok r2 =>
              rw [toolLoop_tool_ok env p t r2 rest2 acc hp]
              exact ih r2 _ (Or.inr ⟨b2, hmem, hs⟩)

/-! A probe backend for the iteration-cap question: it answers n
consecutive function-call requests and then a plain text reply. -/

/-- A response whose first part requests the calculate tool. -/
def probeResp : ModelResponse :=
  ⟨some ⟨str "calculate", [(str "expression", str "2+2")]⟩, []⟩

def toolReply : BackendReply := .ok probeResp

/-- A plain text reply that ends the loop. -/
def textReply : BackendReply := .ok ⟨none, str "ok"⟩

/-- A script of n tool requests followed by one text reply. -/
def probeScript (n : Nat) : List BackendReply :=
  List.replicate n toolReply ++ [textReply]

/-- The tool_call / tool_result event pair of one probe iteration. -/
def probePair (env : ToolEnv) : List Ev :=
  [.toolCall (str "calculate") [(str "expression", str "2+2")],
   .toolResult (str "calculate")
     (execute_tool env (str "calculate") [(str "expression", str "2+2")])]

def probePairs (env : ToolEnv) : Nat → List Ev
  | 0 => []
  | k + 1 => probePair env ++ probePairs env k

/-- The token stream and complete event for the closing text reply. -/
def probeTail : List Ev :=
  (splitTokens (str "ok")).map Ev.token ++ [.complete (str "ok")]

theorem probe_loop (env : ToolEnv) (n : Nat) : ∀ (acc : List Ev),
    toolLoop env probeResp (List.replicate n toolReply ++ [textReply]) acc =
      some (acc ++ (probePairs env (n + 1) ++ probeTail), some (str "ok")) := by
  induction n with
  | zero =>
    intro acc
    rw [List.replicate_zero, List.nil_append]
    rw [show toolLoop env probeResp [textReply] acc =
      some (acc ++ probePair env ++ (splitTokens (str "ok")).map Ev.token ++
        [Ev.complete (str "ok")], some (str "ok")) from rfl]
    simp [probePairs, probePair, probeTail]
  | succ m ih =>
    intro acc
    rw [List.replicate_succ, List.cons_append]
    rw [show toolLoop env probeResp
        (toolReply :: (List.replicate m toolReply ++ [textReply])) acc =
      toolLoop env probeResp (List.replicate m toolReply ++ [textReply])
        (acc ++ probePair env) from rfl]
    rw [ih]
    simp [probePairs]

theorem countP_probePairs_toolCall (env : ToolEnv) (n : Nat) :
    (probePairs env n).countP isToolCallEv = n := by
  induction n with
  | zero => rfl
  | succ m ih => simp [probePairs, probePair, List.countP_append, ih, List.countP_cons,
      isToolCallEv]

theorem countP_probePairs_error (env : ToolEnv) (n : Nat) :
    (probePairs env n).countP isErrorEv = 0 := by
  induction n with
  | zero => rfl
  | succ m ih => simp [probePairs, probePair, List.countP_append, ih, List.countP_cons,
      isErrorEv]

theorem countP_probeTail_toolCall : probeTail.countP isToolCallEv = 0 := rfl

theorem countP_probeTail_error : probeTail.countP isErrorEv = 0 := rfl

/-- Unfolding process_message on a disabled backend. -/
theorem process_message_unavailable (env : ToolEnv) (hist : List Turn) (msg : Str)
    (script : List BackendReply) :
    process_message env false hist msg script = some ([.error notInitMsg], hist) := rfl

/-- Unfolding process_message on an exhausted script. -/
theorem process_message_nil (env : ToolEnv) (hist : List Turn) (msg : Str) :
    process_message env true hist msg [] = none := rfl

/-- Unfolding process_message when the first send raises. -/
theorem process_message_exn (env : ToolEnv) (hist : List Turn) (msg m : Str)
    (tail : List BackendReply) :
    process_message env true hist msg (.exn m :: tail) =
      some ([.error (classify m)], hist ++ [Turn.user msg]) := rfl

/-- Unfolding process_message when the first send returns a response. -/
theorem process_message_ok (env : ToolEnv) (hist : List Turn) (msg : Str)
    (r : ModelResponse) (rest : List BackendReply) :
    process_message env true hist msg (.ok r :: rest) =
      (toolLoop env r rest []).map (fun p =>
        (p.1, match p.2 with
              | some s => (hist ++ [Turn.user msg]) ++ [Turn.assistant s]
              | none => hist ++ [Turn.user msg])) := rfl

/-- A concrete environment for evaluating the model on closed inputs. -/
def testEnv : ToolEnv :=
  { evalExpr := fun _ => .ok (.num 4)
    randTempC := 20
    randCond := str "Sunny"
    randHumidity := 50
    randWind := 10
    nowIso := str "2026-01-01T00:00:00"
    nowDate := str "2026-01-01"
    nowTime := str "00:00:00"
    nowDay := str "Thursday" }

/-- Claim C1, counterexample: the tool-calling loop of
ConversationAgent.process_message has no iteration cap.  A backend script
of 20 consecutive tool-call requests followed by a text reply drives 20
tool iterations in one turn: the engine emits 20 tool_call events and no
error event, and the turn still ends with a complete event — contradicting
the claimed bounded cap (recommended 8) whose excess would transition
directly to an error event. -/
theorem c1_no_cap_cex :
    (process_message testEnv true [] (str "hi") (probeScript 20)).map
      (fun p => (p.1.countP isToolCallEv, p.1.countP isErrorEv,
        p.1.getLast?.map isTerminal)) = some (20, 0, some true) := by decide

/-- Claim C1 (amended): the loop is uncapped — for every n a backend
issuing n tool-call requests before its first non-tool reply produces n
tool_call events and no error event in a single turn; nevertheless,
whenever process_message returns at all its event sequence ends with a
complete or an error event, and it does return for every script in which
the backend eventually stops requesting tools (or raises). -/
theorem c1_tool_loop_uncapped_terminal :
    (∀ (env : ToolEnv) (n : Nat) (hist : List Turn) (msg : Str),
      (process_message env true hist msg (probeScript n)).map
        (fun p => (p.1.countP isToolCallEv, p.1.countP isErrorEv)) = some (n, 0)) ∧
    (∀ (env : ToolEnv) (llm : Bool) (hist : List Turn) (msg : Str)
        (script : List BackendReply) (evs : List Ev) (hist2 : List Turn),
      process_message env llm hist msg script = some (evs, hist2) →
      ∃ e, evs.getLast? = some e ∧ isTerminal e = true) ∧
    (∀ (env : ToolEnv) (hist : List Turn) (msg : Str) (script : List BackendReply),
      (∃ b ∈ script, isStopper b = true) →
      (process_message env true hist msg script).isSome = true) := by
  refine ⟨?_, ?_, ?_⟩
  · intro env n hist msg
    cases n with
    | zero => rfl
    | succ m =>
      have hs : probeScript (m + 1) =
          .ok probeResp :: (List.replicate m toolReply ++ [textReply]) := by
        simp [probeScript, List.replicate_succ, toolReply]
      rw [hs, process_message_ok, probe_loop env m []]
      simp [List.countP_append, countP_probePairs_toolCall, countP_probePairs_error,
        countP_probeTail_toolCall, countP_probeTail_error]
  · intro env llm hist msg script evs hist2 h
    cases llm with
    | false =>
      rw [process_message_unavailable] at h
      simp only [Option.some.injEq, Prod.mk.injEq] at h
      obtain ⟨rfl, rfl⟩ := h
      exact ⟨.error notInitMsg, rfl, rfl⟩
    | true =>
      cases script with
      | nil => rw [process_message_nil] at h; cases h
      | cons b tail =>
        cases b with
        | exn m =>
          rw [process_message_exn] at h
          simp only [Option.some.injEq, Prod.mk.injEq] at h
          obtain ⟨rfl, rfl⟩ := h
          exact ⟨.error (classify m), rfl, rfl⟩
        | ok r =>
          rw [process_message_ok] at h
          obtain ⟨⟨evsl, at2⟩, hloop, hf⟩ := Option.map_eq_some'.mp h
          simp only [Prod.mk.injEq] at hf
          obtain ⟨rfl, -⟩ := hf
          exact toolLoop_terminal env tail r [] evsl at2 hloop
  · intro env hist msg script hex
    obtain ⟨b, hb, hs⟩ := hex
    cases script with
    | nil => simp at hb
    | cons b0 tail =>
      cases b0 with
      | exn m => rw [process_message_exn]; rfl
      | ok r =>
        rw [process_message_ok, Option.isSome_map']
        apply toolLoop_some_of_stopper
        rcases List.mem_cons.mp hb with rfl | hmem
        · exact Or.inl hs
        · exact Or.inr ⟨b, hmem, hs⟩

/-- Claim C1, witness: the amended theorem evaluated on concrete inputs —
a 3-iteration probe, a turn ended by a first-send exception, and the
stopper condition for that script. -/
theorem c1_tool_loop_uncapped_terminal_w :
    ((process_message testEnv true [] (str "hi") (probeScript 3)).map
      (fun p => (p.1.countP isToolCallEv, p.1.countP isErrorEv)) = some (3, 0)) ∧
    (∃ e, ([Ev.error (classify (str "boom"))] : List Ev).getLast? = some e ∧
      isTerminal e = true) ∧
    ((process_message testEnv true [] (str "hi")
      [.exn (str "boom")]).isSome = true) :=
  ⟨c1_tool_loop_uncapped_terminal.1 testEnv 3 [] (str "hi"),
   c1_tool_loop_uncapped_terminal.2.1 testEnv true [] (str "hi")
     [.exn (str "boom")] [Ev.error (classify (str "boom"))]
     [Turn.user (str "hi")] rfl,
   c1_tool_loop_uncapped_terminal.2.2 testEnv [] (str "hi")
     [.exn (str "boom")] ⟨.exn (str "boom"), by simp, rfl⟩⟩

/-- The content of a token event. -/
def tokenContent : Ev → Option Str
  | .token c => some c
  | _ => none

/-- The concatenation of the contents of a turn's token events. -/
def tokenConcat (evs : List Ev) : Str :=
  (evs.filterMap tokenContent).flatten

theorem tokenConcat_stream (l : List Str) (s : Str) :
    tokenConcat (l.map Ev.token ++ [Ev.complete s]) = l.flatten := by
  induction l with
  | nil => rfl
  | cons w ws ih =>
    simp only [List.map_cons, List.cons_append, tokenConcat,
      List.filterMap_cons, tokenContent] at ih ⊢
    simp only [List.flatten_cons]
    rw [ih]

/-- Claim C3: a non-empty text reply is emitted as one token event per
word-boundary chunk followed by exactly one terminal complete event
carrying the full text, and the concatenation of the token contents equals
the complete content. -/
theorem c3_token_stream_concat (env : ToolEnv) (hist : List Turn) (msg s : Str)
    (h : s ≠ []) :
    process_message env true hist msg [.ok ⟨none, s⟩] =
      some ((splitTokens s).map Ev.token ++ [.complete s],
        (hist ++ [Turn.user msg]) ++ [Turn.assistant s]) ∧
    tokenConcat ((splitTokens s).map Ev.token ++ [Ev.complete s]) = s ∧
    ((splitTokens s).map Ev.token ++ [Ev.complete s]).countP isTokenEv =
      (splitTokens s).length ∧
    ((splitTokens s).map Ev.token ++ [Ev.complete s]).countP isCompleteEv = 1 ∧
    ((splitTokens s).map Ev.token ++ [Ev.complete s]).getLast? =
      some (.complete s) := by
  refine ⟨?_, ?_, ?_, ?_, List.getLast?_concat _⟩
  · rw [process_message_ok, toolLoop_none_eq]
    simp [finishTurn, h]
  · rw [tokenConcat_stream (splitTokens s) s, join_splitTokens]
  · simp [List.countP_append, List.countP_map, Function.comp, isTokenEv,
      List.countP_cons]
  · simp [List.countP_append, List.countP_map, Function.comp, isCompleteEv,
      List.countP_cons]

/-- Claim C3, witness: the stream for the concrete reply built from the
two words hi and there. -/
theorem c3_token_stream_concat_w :
    process_message testEnv true [] (str "hey") [.ok ⟨none, str "hi there"⟩] =
      some ((splitTokens (str "hi there")).map Ev.token ++
          [.complete (str "hi there")],
        ([] ++ [Turn.user (str "hey")]) ++ [Turn.assistant (str "hi there")]) ∧
    tokenConcat ((splitTokens (str "hi there")).map Ev.token ++
      [Ev.complete (str "hi there")]) = str "hi there" ∧
    ((splitTokens (str "hi there")).map Ev.token ++
      [Ev.complete (str "hi there")]).countP isTokenEv =
      (splitTokens (str "hi there")).length ∧
    ((splitTokens (str "hi there")).map Ev.token ++
      [Ev.complete (str "hi there")]).countP isCompleteEv = 1 ∧
    ((splitTokens (str "hi there")).map Ev.token ++
      [Ev.complete (str "hi there")]).getLast? =
      some (.complete (str "hi there")) :=
  c3_token_stream_concat testEnv [] (str "hey") (str "hi there") (by decide)

/-- Claim C4: a backend reply with no usable content (no function-call
part, empty text accessor) makes the turn yield exactly one event — an
error carrying the quota/empty-response message — with no assistant entry
appended to the working history, and the persistence mapping of that turn
contains no ai_response write. -/
theorem c4_empty_reply_single_error (env : ToolEnv) (hist : List Turn)
    (msg : Str) (p : Option ModelPart)
    (hp : match p with
          | some q => q.fcName = []
          | none => True) :
    process_message env true hist msg [.ok ⟨p, []⟩] =
      some ([.error emptyRespMsg], hist ++ [Turn.user msg]) ∧
    persistTurn [Ev.error emptyRespMsg] = [.errorW emptyRespMsg] ∧
    (persistTurn [Ev.error emptyRespMsg]).countP isAiRespW = 0 := by
  refine ⟨?_, rfl, rfl⟩
  cases p with
  | none =>
    rw [process_message_ok, toolLoop_none_eq]
    simp [finishTurn]
  | some q =>
    rw [process_message_ok, toolLoop_break_eq env q [] [] [] hp]
    simp [finishTurn]

/-- Claim C4, witness: the empty reply on a concrete turn. -/
theorem c4_empty_reply_single_error_w :
    process_message testEnv true [] (str "hello") [.ok ⟨none, []⟩] =
      some ([.error emptyRespMsg], [] ++ [Turn.user (str "hello")]) ∧
    persistTurn [Ev.error emptyRespMsg] = [.errorW emptyRespMsg] ∧
    (persistTurn [Ev.error emptyRespMsg]).countP isAiRespW = 0 :=
  c4_empty_reply_single_error testEnv [] (str "hello") none trivial

/-- Claim C7: execute_tool on any name outside the registered set returns
the sentinel unknown-tool error dict (it never raises), and such a request
is not fatal to the turn: the loop relays the sentinel as a tool_result
event and the turn still ends with a complete event. -/
theorem c7_unknown_tool_sentinel (env : ToolEnv) (name : Str)
    (args : List (Str × Str))
    (h1 : name ≠ str "get_weather") (h2 : name ≠ str "calculate")
    (h3 : name ≠ str "search_knowledge") (h4 : name ≠ str "get_current_time") :
    execute_tool env name args = .err (str "Unknown tool: " ++ name) ∧
    (name ≠ [] →
      process_message env true [] name
          [.ok ⟨some ⟨name, args⟩, []⟩, textReply] =
        some (([] ++ [Ev.toolCall name args,
            Ev.toolResult name (.err (str "Unknown tool: " ++ name))] ++
            (splitTokens (str "ok")).map Ev.token) ++ [Ev.complete (str "ok")],
          ([] ++ [Turn.user name]) ++ [Turn.assistant (str "ok")]) ∧
      (([] ++ [Ev.toolCall name args,
            Ev.toolResult name (.err (str "Unknown tool: " ++ name))] ++
            (splitTokens (str "ok")).map Ev.token) ++
          [Ev.complete (str "ok")]).getLast? = some (.complete (str "ok"))) := by
  have hsent : execute_tool env name args = .err (str "Unknown tool: " ++ name) := by
    simp [execute_tool, h1, h2, h3, h4]
  refine ⟨hsent, fun h0 => ⟨?_, List.getLast?_concat _⟩⟩
  rw [process_message_ok]
  rw [show textReply = BackendReply.ok (⟨none, str "ok"⟩ : ModelResponse) from rfl]
  rw [toolLoop_tool_ok env ⟨name, args⟩ [] ⟨none, str "ok"⟩ [] [] h0]
  rw [toolLoop_none_eq]
  have hok : (str "ok" : Str) ≠ [] := by decide
  simp [finishTurn, hsent, hok]

/-- Claim C7, witness: the unknown tool name foo. -/
theorem c7_unknown_tool_sentinel_w :
    execute_tool testEnv (str "foo") [] =
      .err (str "Unknown tool: " ++ str "foo") ∧
    (str "foo" ≠ [] →
      process_message testEnv true [] (str "foo")
          [.ok ⟨some ⟨str "foo", []⟩, []⟩, textReply] =
        some (([] ++ [Ev.toolCall (str "foo") [],
            Ev.toolResult (str "foo") (.err (str "Unknown tool: " ++ str "foo"))] ++
            (splitTokens (str "ok")).map Ev.token) ++ [Ev.complete (str "ok")],
          ([] ++ [Turn.user (str "foo")]) ++ [Turn.assistant (str "ok")]) ∧
      (([] ++ [Ev.toolCall (str "foo") [],
            Ev.toolResult (str "foo") (.err (str "Unknown tool: " ++ str "foo"))] ++
            (splitTokens (str "ok")).map Ev.token) ++
          [Ev.complete (str "ok")]).getLast? = some (.complete (str "ok"))) :=
  c7_unknown_tool_sentinel testEnv (str "foo") [] (by decide) (by decide)
    (by decide) (by decide)

/-- Claim C2, counterexample: resuming a session that was ended violates
the invariant that end time and duration are both set or both absent.
After start at 0 and end at 10 the invariant holds (end time 10, duration
10); resume clears the end time but leaves duration_seconds = 10 stored,
so the resumed row has a duration and no end time. -/
theorem c2_resume_breaks_invariant_cex :
    sysInv ((end_session 10 (start_session 0 initS)).1) = true ∧
    sysInv (resume_session ((end_session 10 (start_session 0 initS)).1)) = false := by
  decide

/-- Claim C2 (amended): start always establishes the invariant; end
preserves it whenever the manager's locally tracked start time agrees with
the stored one; the finalize update preserves it whenever the duration it
writes is computed from the stored start time; but resume preserves it
only when the stored duration is absent — resume clears the end time
without clearing the duration (see the counterexample). -/
theorem c2_lifecycle_invariant_amended (s : SysS) (t endT connStart : Nat)
    (summary : Str) :
    sysInv (start_session t s) = true ∧
    (sysInv s = true → startSync s = true → sysInv (end_session t s).1 = true) ∧
    (sysInv s = true → (∀ r, s.row = some r → connStart = r.start_time) →
      sysInv (update_session
        (finalize_patch summary endT (endT - connStart)) s) = true) ∧
    (sysInv s = true → durNone s = true → sysInv (resume_session s) = true) := by
  refine ⟨rfl, ?_, ?_, ?_⟩
  · intro hInv hSync
    by_cases ha : s.mgr.is_active = false
    · simpa [end_session, ha] using hInv
    · cases hrow : s.row with
      | none => simp [end_session, ha, update_session, sysInv, hrow]
      | some r =>
        have hst : s.mgr.start_time = some r.start_time := by
          simpa [startSync, hrow] using hSync
        simp [end_session, ha, update_session, sysInv, hrow, hst, applyPatch,
          rowInv]
  · intro hInv hConn
    cases hrow : s.row with
    | none => simp [update_session, sysInv, hrow]
    | some r =>
      have hc : connStart = r.start_time := hConn r hrow
      simp [update_session, sysInv, hrow, applyPatch, finalize_patch, rowInv, hc]
  · intro hInv hDur
    cases hrow : s.row with
    | none => simpa [resume_session, hrow] using hInv
    | some r =>
      have hd : r.duration_seconds = none := by
        simpa [durNone, hrow, Option.isNone_iff_eq_none] using hDur
      simp [resume_session, hrow, sysInv, applyPatch, rowInv, hd]

/-- Claim C2, witness: the amended preservation facts evaluated on the
concrete lifecycle trace start at 0 (then end at 10, finalize at 10,
resume). -/
theorem c2_lifecycle_invariant_amended_w :
    sysInv (start_session 0 initS) = true ∧
    sysInv (end_session 10 (start_session 0 initS)).1 = true ∧
    sysInv (update_session (finalize_patch (str "s") 10 (10 - 0))
      (start_session 0 initS)) = true ∧
    sysInv (resume_session (start_session 0 initS)) = true :=
  ⟨(c2_lifecycle_invariant_amended initS 0 10 0 (str "s")).1,
   (c2_lifecycle_invariant_amended (start_session 0 initS) 10 10 0
      (str "s")).2.1 (by decide) (by decide),
   (c2_lifecycle_invariant_amended (start_session 0 initS) 0 10 0
      (str "s")).2.2.1 (by decide)
     (by
       intro r hr
       have hr2 : r = freshRow 0 := by
         simpa [start_session] using hr.symm
       simp [hr2, freshRow]),
   (c2_lifecycle_invariant_amended (start_session 0 initS) 0 0 0
      (str "s")).2.2.2 (by decide) (by decide)⟩

/-- Claim C5: end_session is idempotent — with the manager active, ending
twice issues exactly one finalize (session-update) write in total, the
second call issues no writes at all, and the second call leaves the state
unchanged. -/
theorem c5_end_session_idempotent (s : SysS) (t t2 : Nat)
    (h : s.mgr.is_active = true) :
    ((end_session t s).2 ++
      (end_session t2 (end_session t s).1).2).countP isUpdateWrite = 1 ∧
    (end_session t2 (end_session t s).1).2 = [] ∧
    (end_session t2 (end_session t s).1).1 = (end_session t s).1 := by
  have hno : ∀ (u : Nat) (s2 : SysS), s2.mgr.is_active = false →
      end_session u s2 = (s2, []) := by
    intro u s2 h2
    simp [end_session, h2]
  have h1 : (end_session t s).1.mgr.is_active = false := by
    simp [end_session, h]
  have h2 := hno t2 (end_session t s).1 h1
  refine ⟨?_, ?_, ?_⟩
  · rw [h2]
    have h3 : (end_session t s).2 =
        [SWrite.logSystem (str "Session ended")
          (s.mgr.start_time.map (fun st => t - st)),
         SWrite.update
          { endT := some (some t)
            dur := some (s.mgr.start_time.map (fun st => t - st))
            status := some .completed, summary := none, name := none }] := by
      simp [end_session, h]
    simp [h3, List.countP_cons, isUpdateWrite]
  · rw [h2]
  · rw [h2]

/-- Claim C5, witness: ending the freshly started session twice. -/
theorem c5_end_session_idempotent_w :
    ((end_session 5 (start_session 0 initS)).2 ++
      (end_session 7 (end_session 5 (start_session 0 initS)).1).2).countP
        isUpdateWrite = 1 ∧
    (end_session 7 (end_session 5 (start_session 0 initS)).1).2 = [] ∧
    (end_session 7 (end_session 5 (start_session 0 initS)).1).1 =
      (end_session 5 (start_session 0 initS)).1 :=
  c5_end_session_idempotent (start_session 0 initS) 5 7 (by decide)

/-- Claim C6: an inbound frame that json.loads cannot parse is answered
with the error frame carrying the message Invalid message format, and the
connection loop goes on to process every following frame exactly as it
would have without the malformed one — regardless of the engine and of the
raw bytes received. -/
theorem c6_malformed_frame_error (engine : Str → List Ev) (raw : Str)
    (rest : List Inbound) :
    runLoop engine (.malformed raw :: rest) =
      .errorF (str "Invalid message format") :: runLoop engine rest := by
  simp [runLoop, stepFrame]

/-- A concrete post-processing environment for closed evaluation. -/
def testPostEnv : PostEnv := { summarize := fun _ => [], chatName := fun _ => [] }

/-- Claim C8: a session with zero persisted user_message events is deleted
by the post-processor together with all its events — the outcome status is
deleted, the session id no longer resolves, and no event row for it
remains. -/
theorem c8_empty_session_deleted (env : PostEnv) (db : Db) (sid : Nat)
    (startT endT : Nat)
    (h0 : get_session_message_count db sid = 0)
    (h1 : (get_session db sid).isSome = true) :
    (process_session_end env db sid startT endT).1 =
      { status := str "deleted", reason := some (str "empty_session") } ∧
    get_session (process_session_end env db sid startT endT).2 sid = none ∧
    (process_session_end env db sid startT endT).2.events.filter
      (fun e => e.sid == sid) = [] := by
  have hex : (db.sessions.find? (fun p => p.1 == sid)).isSome = true := by
    simpa [get_session] using h1
  refine ⟨?_, ?_, ?_⟩
  · simp [process_session_end, h0, delete_session, hex]
  · simp only [process_session_end, h0, if_pos, delete_session, get_session]
    rw [List.find?_eq_none.mpr]
    · rfl
    · intro x hx
      have hmem := List.mem_filter.mp hx
      simpa using hmem.2
  · simp only [process_session_end, h0, if_pos, delete_session]
    rw [List.filter_eq_nil_iff.mpr]
    intro x hx
    have hmem := List.mem_filter.mp hx
    simpa using hmem.2

/-- Claim C8, witness: a store holding session 1 with no user_message
events (the only user_message row belongs to session 2). -/
theorem c8_empty_session_deleted_w :
    (process_session_end testPostEnv
      ⟨[(1, freshRow 0)], [⟨2, .user_message, str "hi"⟩]⟩ 1 0 5).1 =
      { status := str "deleted", reason := some (str "empty_session") } ∧
    get_session (process_session_end testPostEnv
      ⟨[(1, freshRow 0)], [⟨2, .user_message, str "hi"⟩]⟩ 1 0 5).2 1 = none ∧
    (process_session_end testPostEnv
      ⟨[(1, freshRow 0)], [⟨2, .user_message, str "hi"⟩]⟩ 1 0 5).2.events.filter
        (fun e => e.sid == 1) = [] :=
  c8_empty_session_deleted testPostEnv
    ⟨[(1, freshRow 0)], [⟨2, .user_message, str "hi"⟩]⟩ 1 0 5
    (by decide) (by decide)

/-- Claim C9: calculate always returns a result dict and never raises —
the success flag is true exactly when the evaluation raised no exception,
the input expression is always echoed back, success implies a result value
is present with no error key, and any evaluation failure is returned as
the dict carrying the error text as data with success false. -/
theorem c9_calculate_total (ev : Except Str Val) (expr : Str) :
    ((calculate ev expr).success = true ↔ ∃ v, ev = .ok v) ∧
    (calculate ev expr).expression = expr ∧
    ((calculate ev expr).success = true →
      (calculate ev expr).result.isSome = true ∧ (calculate ev expr).error = none) ∧
    (∀ e, ev = .error e →
      calculate ev expr =
        { expression := expr, result := none, error := some e, success := false }) := by
  cases ev <;> simp [calculate]

/-- Claim C9, witness: a failing evaluation of the expression 1/0. -/
theorem c9_calculate_total_w :
    ((calculate (.error (str "division by zero")) (str "1/0")).success = true ↔
      ∃ v, (Except.error (str "division by zero") : Except Str Val) = .ok v) ∧
    (calculate (.error (str "division by zero")) (str "1/0")).expression =
      str "1/0" ∧
    ((calculate (.error (str "division by zero")) (str "1/0")).success = true →
      (calculate (.error (str "division by zero")) (str "1/0")).result.isSome =
        true ∧
      (calculate (.error (str "division by zero")) (str "1/0")).error = none) ∧
    (∀ e, (Except.error (str "division by zero") : Except Str Val) = .error e →
      calculate (.error (str "division by zero")) (str "1/0") =
        { expression := str "1/0", result := none, error := some e,
          success := false }) :=
  c9_calculate_total (.error (str "division by zero")) (str "1/0")

/-- Claim C10: for every query and category, search_knowledge returns a
non-empty results list (the simulated fallback entry is appended when
nothing matches) and its result_count field equals the length of that
list. -/
theorem c10_search_results_nonempty (query category : Str) :
    (search_knowledge query category).results ≠ [] ∧
    (search_knowledge query category).result_count =
      (search_knowledge query category).results.length := by
  have key : ∀ (l : List KBInfo) (f : KBInfo),
      (if l.isEmpty then [f] else l) ≠ [] := by
    intro l f
    cases l <;> simp
  exact ⟨key _ _, rfl⟩

end RTChat
